import Mathlib

/-!
Shallow embedding of src/src/saltext/cohesity/modules/cohesity_mod.py.

Modelling conventions:
  - Every Cohesity SDK endpoint used by the module is a field of ApiEnv.
    A value of type Except String a models one call that either raises
    APIException (the error case, carrying the stringified message) or
    returns a response of type a.
  - Python exceptions other than APIException are values of PyErr; the
    except-blocks in the module catch APIException only, so PyErr values
    escape past the operation boundary.
  - Each operation returns (Except PyErr String, List ApiCall): the
    Python return value (or the escaping exception) together with the
    list of SDK calls issued, in order.
-/

deriving instance DecidableEq for Except

namespace Cohesity

/-- Python exceptions other than APIException; these are not caught by the
except-APIException blocks in the module and escape the operations. -/
inductive PyErr where
  | unboundLocal (varName : String)
  | indexError
  | valueError
deriving DecidableEq, Repr

/-- One root node from list_protection_sources_root_nodes:
registration_info.access_info.endpoint, protection_source.name,
protection_source.id. -/
structure RootSource where
  endpoint : String
  srcName : String
  srcId : Int
deriving DecidableEq, Repr

/-- One entry from list_virtual_machines: name and id. -/
structure Vm where
  vmName : String
  vmId : Int
deriving DecidableEq, Repr

/-- A protection job as returned by get_protection_jobs: id, name,
source_ids (the fields the module reads or writes). -/
structure Job where
  jobId : Int
  jobName : String
  sourceIds : List Int
deriving DecidableEq, Repr

/-- A view box or protection policy: only its id is used. -/
structure Entity where
  entId : Int
deriving DecidableEq, Repr

/-- One protection run: backup_run.status and backup_run.job_run_id. -/
structure RunInfo where
  status : String
  jobRunId : Int
deriving DecidableEq, Repr

/-- One object_snapshot_info record from search_objects: job_id,
versions[0].job_run_id, job_uid, versions[0].started_time_usecs. -/
structure Snap where
  sJobId : Int
  sJobRunId : Int
  sUid : Int
  sTime : Int
deriving DecidableEq, Repr

/-- The snapshot data picked by the scan loop of restore_vms
(job_id, job_run_id, job_uid, t_stamp). -/
structure SnapPick where
  pJobId : Int
  pJobRunId : Int
  pUid : Int
  pTStamp : Int
deriving DecidableEq, Repr

/-- A node of the protection-source tree walked by _fetch_source_objects:
protectionSource.vmWareProtectionSource.type, protectionSource.name,
protectionSource.id, and the nested "nodes" list. -/
inductive PNode where
  | mk (nodeType : String) (pName : String) (pId : Int) (children : List PNode)

def PNode.nodeType : PNode → String
  | .mk t _ _ _ => t

def PNode.pName : PNode → String
  | .mk _ n _ _ => n

def PNode.pId : PNode → Int
  | .mk _ _ i _ => i

def PNode.children : PNode → List PNode
  | .mk _ _ _ cs => cs

/-- One element of the list_protection_sources response: its top-level
"nodes" list (the module reads source_objects[0].nodes). -/
structure SourceRoot where
  nodes : List PNode

/-- Request body built by create_vmware_protection_job
(ProtectionJobRequestBody fields the module sets). -/
structure JobRequestBody where
  rName : String
  rDescription : String
  rPolicyId : Option Int
  rTimezone : String
  rViewBoxId : Option Int
  rPause : Bool
  rParentSourceId : Int
  rSourceIds : List Int
deriving DecidableEq, Repr

/-- RestoreObjectDetails as filled in by restore_vms. -/
structure RestoreObj where
  oEnvironment : String
  oJobId : Int
  oJobRunId : Int
  oUid : Int
  oProtectionSourceId : Int
  oSourceName : String
  oStartedTimeUsecs : Int
deriving DecidableEq, Repr

/-- RecoverTaskRequest as filled in by restore_vms. -/
structure RecoverBody where
  rTaskName : String
  rType : String
  rObjects : List RestoreObj
  rPoweredOn : Bool
  rRecoveryProcessType : String
  rPfx : String
  rSfx : String
deriving DecidableEq, Repr

/-- One SDK call issued by an operation, with the arguments the module
passes (only those relevant to observable behaviour). -/
inductive ApiCall where
  | listRootNodes
  | listVirtualMachines (vCenterId : Int) (names : List String)
  | getProtectionJobs (names : String)
  | getPolicies (names : String)
  | getViewBoxes (names : String)
  | createProtectionJob (body : JobRequestBody)
  | changeProtectionJobState (jobId : Int) (pause : Bool)
  | updateProtectionJob (body : Job) (jobId : Int)
  | updateProtectionJobsState (action : String) (jobIds : List Int)
  | getProtectionRuns (jobId : Int)
  | createCancelProtectionJobRun (jobId : Int) (runId : Int)
  | searchObjects (search : String) (registeredSourceIds : Int)
  | listProtectionSources (id : Int)
  | createRecoverTask (body : RecoverBody)
deriving DecidableEq, Repr

/-- The remote cluster as seen through the SDK: one field per endpoint,
each holding the response (or APIException message) the endpoint would
produce for the single call the operation makes. -/
structure ApiEnv where
  rootNodes : Except String (List RootSource)
  virtualMachines : Int → List String → Except String (List Vm)
  protectionJobs : String → Except String (List Job)
  policies : String → Except String (List Entity)
  viewBoxes : String → Except String (List Entity)
  createJobResp : Except String Job
  changeStateResp : Except String Unit
  updateJobResp : Except String Unit
  updateJobsStateResp : Except String Unit
  protectionRuns : Int → Except String (List RunInfo)
  cancelRunResp : Except String Unit
  searchObjectsResp : String → Int → Except String (List Snap)
  listProtectionSourcesResp : Except String (List SourceRoot)
  recoverTaskResp : Except String Unit

/-! ## The client provider (_get_client) -/

/-- Connection settings read from cohesity_config. -/
structure CohesityConfig where
  clusterVip : String
  username : String
  password : String
  domain : String
deriving DecidableEq, Repr

/-- The CohesityClient handle built from the configuration. -/
structure Client where
  cVip : String
  cUsername : String
  cPassword : String
  cDomain : String
deriving DecidableEq, Repr

/-- Process state: how many CohesityClient constructions have happened. -/
structure ClientProcState where
  built : Nat
deriving DecidableEq, Repr

/-- The module __name__ used to form the context key. -/
def module_name : String := "saltext.cohesity.modules.cohesity_mod"

/-- Embedding of _get_client.  The Python body rebinds __context__ to the
fresh local dict produced by dict(context_key=None), whose single key is
the literal string "context_key"; it then checks whether the derived
context key is present, and stores the new client into that local dict,
which is discarded when the call returns.  The Nat in ClientProcState
counts CohesityClient constructions. -/
def get_client (cfg : CohesityConfig) (st : ClientProcState) :
    Option Client × ClientProcState :=
  let contextKey := module_name ++ ".cohesity_client"
  let contextDict : List (String × Option Client) := [("context_key", none)]
  match contextDict.find? (fun kv => kv.1 == contextKey) with
  | some kv => (kv.2, st)
  | none =>
    let client : Client := ⟨cfg.clusterVip, cfg.username, cfg.password, cfg.domain⟩
    (some client, ⟨st.built + 1⟩)

/-! ## Helper lookups -/

/-- Embedding of _get_sd_id: returns resp[0].id when the view-box list is
non-empty, None otherwise; an APIException propagates to the caller. -/
def get_sd_id (env : ApiEnv) (name : String) :
    Except String (Option Int) × List ApiCall :=
  match env.viewBoxes name with
  | .error e => (.error e, [.getViewBoxes name])
  | .ok l => (.ok (l.head?.map (fun x => x.entId)), [.getViewBoxes name])

/-- Embedding of _get_policy_id: returns resp[0].id when the policy list
is non-empty, None otherwise; an APIException propagates to the caller. -/
def get_policy_id (env : ApiEnv) (name : String) :
    Except String (Option Int) × List ApiCall :=
  match env.policies name with
  | .error e => (.error e, [.getPolicies name])
  | .ok l => (.ok (l.head?.map (fun x => x.entId)), [.getPolicies name])

/-- The parent-id scan of _get_vmware_source_ids: parent_id starts at -1
and is overwritten on every root whose endpoint or name equals the
requested name (no break, so the last match wins). -/
def find_parent_id (roots : List RootSource) (name : String) : Int :=
  roots.foldl
    (fun acc s => if name = s.endpoint ∨ name = s.srcName then s.srcId else acc)
    (-1)

/-- Python list.remove: drop the first occurrence, ValueError if absent. -/
def py_remove (xs : List String) (x : String) : Except PyErr (List String) :=
  if x ∈ xs then .ok (xs.erase x) else .error .valueError

/-- The per-VM loop of _get_vmware_source_ids: vm_names.remove(vm.name)
then source_id_list.append(vm.id); returns the remaining names and the
collected ids, or the escaping ValueError. -/
def vm_loop : List Vm → List String → List Int →
    Except PyErr (List String × List Int)
  | [], names, acc => .ok (names, acc)
  | vm :: rest, names, acc =>
    match py_remove names vm.vmName with
    | .error e => .error e
    | .ok names2 => vm_loop rest names2 (acc ++ [vm.vmId])

/-- Embedding of _get_vmware_source_ids.  An APIException from either SDK
call is caught and turned into (-1, []); the list_virtual_machines call
is issued unconditionally, with whatever parent_id the scan produced. -/
def get_vmware_source_ids (env : ApiEnv) (name : String) (vm_list : List String) :
    Except PyErr (Int × List Int) × List ApiCall :=
  match env.rootNodes with
  | .error _ => (.ok (-1, []), [.listRootNodes])
  | .ok roots =>
    let parentId := find_parent_id roots name
    match env.virtualMachines parentId vm_list with
    | .error _ => (.ok (-1, []), [.listRootNodes, .listVirtualMachines parentId vm_list])
    | .ok vms =>
      match vm_loop vms vm_list [] with
      | .error e => (.error e, [.listRootNodes, .listVirtualMachines parentId vm_list])
      | .ok out => (.ok (parentId, out.2), [.listRootNodes, .listVirtualMachines parentId vm_list])

/-- Python str.split(","): cut the string at every comma; the empty
string yields [""], mirroring "".split(",") in Python. -/
def py_split_aux (sep : Char) : List Char → List Char → List String
  | [], acc => [String.mk acc.reverse]
  | c :: rest, acc =>
    if c = sep then String.mk acc.reverse :: py_split_aux sep rest []
    else py_split_aux sep rest (c :: acc)

def py_split_comma (s : String) : List String :=
  py_split_aux ',' s.toList []

/-- First job whose name equals job_name (the for/break loops of the
state-change, cancel, run and delete operations); none when no job in the
response has exactly the requested name, in which case job_id stays
unbound in the Python. -/
def find_exact_job_id : List Job → String → Option Int
  | [], _ => none
  | j :: rest, n => if j.jobName = n then some j.jobId else find_exact_job_id rest n

/-- Python str.capitalize: first character upper-cased, rest lower-cased. -/
def py_capitalize (s : String) : String :=
  match s.toList with
  | [] => ""
  | c :: rest => String.mk (c.toUpper :: rest.map Char.toLower)

/-- The id-union loop of update_vmware_protection_job: append each new id
not already present. -/
def union_ids (base : List Int) : List Int → List Int
  | [] => base
  | i :: is => union_ids (if i ∈ base then base else base ++ [i]) is

/-- The snapshot-selection loop of restore_vms: timestamp starts at 0 and
the pick is overwritten only on a strictly larger
versions[0].started_time_usecs. -/
def pick_of (s : Snap) : SnapPick :=
  ⟨s.sJobId, s.sJobRunId, s.sUid, s.sTime⟩

def snap_scan : List Snap → Int → Option SnapPick → Int × Option SnapPick
  | [], t, c => (t, c)
  | s :: rest, t, c =>
    if t < s.sTime then snap_scan rest s.sTime (some (pick_of s))
    else snap_scan rest t c

/-! ## The source-tree walk (_fetch_source_objects) -/

mutual

def PNode.tsize : PNode → Nat
  | .mk _ _ _ cs => 1 + tsizeList cs

def tsizeList : List PNode → Nat
  | [] => 0
  | n :: ns => PNode.tsize n + tsizeList ns

end

theorem tsizeList_append (a b : List PNode) :
    tsizeList (a ++ b) = tsizeList a + tsizeList b := by
  induction a with
  | nil => simp [tsizeList]
  | cons n ns ih => simp [tsizeList, ih]; omega

theorem tsize_pos (n : PNode) : 1 ≤ PNode.tsize n := by
  cases n with
  | mk t nm i cs => simp [PNode.tsize]

theorem tsize_eq (n : PNode) : PNode.tsize n = 1 + tsizeList n.children := by
  cases n with
  | mk t nm i cs => rfl

/-- The worklist walk of _fetch_source_objects: iterating the nodes list
while extending it in place with the children of each node is a queue — take
the front node; if it has children, push them at the back and continue;
otherwise test its type (and, when a name was given, its exact name). -/
def fetch_nodes (source_type nameArg : String) : List PNode → Option Int
  | [] => none
  | .mk t nm i [] :: rest =>
    if t = source_type ∧ (nameArg = "" ∨ nameArg = nm) then some i
    else fetch_nodes source_type nameArg rest
  | .mk _ _ _ (c :: cs) :: rest =>
    fetch_nodes source_type nameArg (rest ++ (c :: cs))
termination_by l => tsizeList l
decreasing_by
  all_goals (simp [tsizeList, PNode.tsize, tsizeList_append]; try omega)

/-- Embedding of _fetch_source_objects: source_objects[0] raises
IndexError on an empty response (the except-APIException there is dead
code — nothing inside raises APIException); otherwise walk the first
nodes of that root, returning the matching id or None. -/
def fetch_source_objects (source_objects : List SourceRoot)
    (source_type nameArg : String) : Except PyErr (Option Int) :=
  match source_objects with
  | [] => .error .indexError
  | root :: _ => .ok (fetch_nodes source_type nameArg root.nodes)

/-! ## Message strings -/

def not_available_dot_msg (job_name : String) : String :=
  "Job with name " ++ job_name ++ " not available."

def not_available_msg (job_name : String) : String :=
  "Job with name " ++ job_name ++ " not available"

def err_create_msg (job_name e : String) : String :=
  "Error creating job " ++ job_name ++ " " ++ e

def err_update_msg (job_name e : String) : String :=
  "Error updating job " ++ job_name ++ " " ++ e

def err_state_msg (state job_name e : String) : String :=
  "Error while attempting to " ++ state ++ " the job " ++ job_name ++ " " ++ e

def err_cancel_msg (job_name e : String) : String :=
  "Error while attempting to cancel the job " ++ job_name ++ ", error : " ++ e

/-- Python joins a STRING with ",".join(sources): the characters of the
string are interleaved with commas. -/
def join_comma_chars (s : String) : String :=
  String.intercalate "," (s.toList.map (fun c => String.mk [c]))

def min_vm_msg (sources vcenter_name : String) : String :=
  "Minimum of one VM is required to created protection job."
    ++ " Unable to find atleast provided VMs " ++ join_comma_chars sources
    ++ " in the Vcenter " ++ vcenter_name

def supported_states : List String := ["activate", "deactivate", "pause", "resume"]

def unsupported_state_msg (state : String) : String :=
  "Job state " ++ state ++ " not supported. Please provide one of the "
    ++ "following states " ++ String.intercalate ", " supported_states

def restore_success_msg (task_name : String) : String :=
  "Successfully created restore task \x27" ++ task_name ++ "\x27."

/-! ## Public operations -/

/-- Embedding of create_vmware_protection_job.  The job body is built
with whatever policy id and view-box id the helper lookups produced
(possibly None); only the parent source id and the source-id list are
checked before submission. -/
def create_vmware_protection_job (env : ApiEnv)
    (job_name vcenter_name sources policy domain : String)
    (pause_job : Bool) (timezone description : String) :
    Except PyErr String × List ApiCall :=
  match env.protectionJobs job_name with
  | .error e => (.ok (err_create_msg job_name e), [.getProtectionJobs job_name])
  | .ok resp =>
    if (match resp with | [] => false | j :: _ => j.jobName == job_name) then
      (.ok ("Job with name " ++ job_name ++ " already exists."),
       [.getProtectionJobs job_name])
    else
      let pol := get_policy_id env policy
      match pol.1 with
      | .error e => (.ok (err_create_msg job_name e),
          .getProtectionJobs job_name :: pol.2)
      | .ok policyId =>
        let sd := get_sd_id env domain
        match sd.1 with
        | .error e => (.ok (err_create_msg job_name e),
            .getProtectionJobs job_name :: pol.2 ++ sd.2)
        | .ok viewBoxId =>
          let src := get_vmware_source_ids env vcenter_name (py_split_comma sources)
          let calls := .getProtectionJobs job_name :: pol.2 ++ sd.2 ++ src.2
          match src.1 with
          | .error e => (.error e, calls)
          | .ok (parentId, sourceIds) =>
            if parentId = -1 then
              (.ok ("Unable to fetch Vcenter with name " ++ vcenter_name), calls)
            else if sourceIds = [] then
              (.ok (min_vm_msg sources vcenter_name), calls)
            else
              let body : JobRequestBody :=
                ⟨job_name, description, policyId, timezone, viewBoxId, true,
                 parentId, sourceIds⟩
              match env.createJobResp with
              | .error e => (.ok (err_create_msg job_name e),
                  calls ++ [.createProtectionJob body])
              | .ok j =>
                if pause_job then
                  match env.changeStateResp with
                  | .error e => (.ok (err_create_msg job_name e),
                      calls ++ [.createProtectionJob body,
                                .changeProtectionJobState j.jobId true])
                  | .ok _ =>
                    (.ok ("Successfully created ProtectionGroup: " ++ job_name),
                     calls ++ [.createProtectionJob body,
                               .changeProtectionJobState j.jobId true])
                else
                  (.ok ("Successfully created ProtectionGroup: " ++ job_name),
                   calls ++ [.createProtectionJob body])

/-- Embedding of update_vmware_protection_job.  The first job of the
name-filtered lookup is taken as the body (no exact-name check); its
source_ids list is emptied when replace_existing, then each newly
resolved id not already present is appended, and the whole body is
submitted. -/
def update_vmware_protection_job (env : ApiEnv)
    (job_name vcenter_name sources : String) (replace_existing : Bool) :
    Except PyErr String × List ApiCall :=
  match env.protectionJobs job_name with
  | .error e => (.ok (err_update_msg job_name e), [.getProtectionJobs job_name])
  | .ok [] => (.ok (not_available_msg job_name), [.getProtectionJobs job_name])
  | .ok (j :: _) =>
    let src := get_vmware_source_ids env vcenter_name (py_split_comma sources)
    match src.1 with
    | .error e => (.error e, .getProtectionJobs job_name :: src.2)
    | .ok (_, newIds) =>
      let newList := union_ids (if replace_existing then [] else j.sourceIds) newIds
      let body := { j with sourceIds := newList }
      match env.updateJobResp with
      | .error e => (.ok (err_update_msg job_name e),
          .getProtectionJobs job_name :: src.2 ++ [.updateProtectionJob body j.jobId])
      | .ok _ => (.ok ("Successfully Updated ProtectionGroup: " ++ body.jobName),
          .getProtectionJobs job_name :: src.2 ++ [.updateProtectionJob body j.jobId])

/-- Embedding of update_vmware_protection_job_state.  The name-filtered
lookup runs first; the supported-state check happens only after it, and
when the non-empty response has no exact name match the later reference
to job_id raises UnboundLocalError. -/
def update_vmware_protection_job_state (env : ApiEnv) (job_name state : String) :
    Except PyErr String × List ApiCall :=
  match env.protectionJobs job_name with
  | .error e => (.ok (err_state_msg state job_name e), [.getProtectionJobs job_name])
  | .ok [] => (.ok (not_available_dot_msg job_name), [.getProtectionJobs job_name])
  | .ok (j :: rest) =>
    if state ∈ supported_states then
      match find_exact_job_id (j :: rest) job_name with
      | none => (.error (.unboundLocal "job_id"), [.getProtectionJobs job_name])
      | some jobId =>
        let action := "k" ++ py_capitalize state
        match env.updateJobsStateResp with
        | .error e => (.ok (err_state_msg state job_name e),
            [.getProtectionJobs job_name, .updateProtectionJobsState action [jobId]])
        | .ok _ => (.ok ("Successfully " ++ state ++ "d future run for job " ++ job_name),
            [.getProtectionJobs job_name, .updateProtectionJobsState action [jobId]])
    else (.ok (unsupported_state_msg state), [.getProtectionJobs job_name])

/-- Embedding of cancel_vmware_protection_job.  job_id is never
initialized before the exact-name loop, so a non-empty response with no
exact match raises UnboundLocalError at the falsy test on job_id; a
found job id of 0 is falsy and reports not-available. -/
def cancel_vmware_protection_job (env : ApiEnv) (job_name : String) :
    Except PyErr String × List ApiCall :=
  match env.protectionJobs job_name with
  | .error e => (.ok (err_cancel_msg job_name e), [.getProtectionJobs job_name])
  | .ok [] => (.ok (not_available_dot_msg job_name), [.getProtectionJobs job_name])
  | .ok (j :: rest) =>
    match find_exact_job_id (j :: rest) job_name with
    | none => (.error (.unboundLocal "job_id"), [.getProtectionJobs job_name])
    | some jobId =>
      if jobId = 0 then
        (.ok (not_available_dot_msg job_name), [.getProtectionJobs job_name])
      else
        match env.protectionRuns jobId with
        | .error e => (.ok (err_cancel_msg job_name e),
            [.getProtectionJobs job_name, .getProtectionRuns jobId])
        | .ok [] => (.ok ("Job run details not available for job " ++ job_name),
            [.getProtectionJobs job_name, .getProtectionRuns jobId])
        | .ok (r :: _) =>
          if r.status = "kRunning" ∨ r.status = "kAccepted" then
            match env.cancelRunResp with
            | .error e => (.ok (err_cancel_msg job_name e),
                [.getProtectionJobs job_name, .getProtectionRuns jobId,
                 .createCancelProtectionJobRun jobId r.jobRunId])
            | .ok _ => (.ok ("Successfully cancelled the run for job " ++ job_name),
                [.getProtectionJobs job_name, .getProtectionRuns jobId,
                 .createCancelProtectionJobRun jobId r.jobRunId])
          else (.ok ("No active job run available for job " ++ job_name),
              [.getProtectionJobs job_name, .getProtectionRuns jobId])

/-- Embedding of restore_vms.  vm_names stays the raw comma-separated
string: the split is local to the resolver call, and vm_names[0] (the
first character) is used both as the search term and as the source name
of the recovery object. -/
def restore_vms (env : ApiEnv)
    (task_name vcenter_name vm_names resource_pool datastore_name pfx sfx : String)
    (powered_on : Bool) : Except PyErr String × List ApiCall :=
  let src := get_vmware_source_ids env vcenter_name (py_split_comma vm_names)
  match src.1 with
  | .error e => (.error e, src.2)
  | .ok (parentId, sourceId) =>
    let calls1 := src.2 ++ [ApiCall.listProtectionSources parentId]
    match env.listProtectionSourcesResp with
    | .error e => (.ok e, calls1)
    | .ok source_objects =>
      match fetch_source_objects source_objects "kResourcePool" resource_pool with
      | .error e => (.error e, calls1)
      | .ok _resource_pool_id =>
        match fetch_source_objects source_objects "kDatastore" datastore_name with
        | .error e => (.error e, calls1)
        | .ok _datastore_id =>
          if vm_names = "" then (.error .indexError, calls1)
          else
            let searchTerm := vm_names.take 1
            let calls2 := calls1 ++ [ApiCall.searchObjects searchTerm parentId]
            match env.searchObjectsResp searchTerm parentId with
            | .error e => (.ok e, calls2)
            | .ok snapshots =>
              match (snap_scan snapshots 0 none).2 with
              | none => (.error (.unboundLocal "job_id"), calls2)
              | some p =>
                match sourceId with
                | [] => (.error .indexError, calls2)
                | sid :: _ =>
                  let obj : RestoreObj :=
                    ⟨"kVMware", p.pJobId, p.pJobRunId, p.pUid, sid,
                     searchTerm, p.pTStamp⟩
                  let body : RecoverBody :=
                    ⟨task_name, "kRecoverVMs", [obj], powered_on,
                     "kInstantRecovery", pfx, sfx⟩
                  match env.recoverTaskResp with
                  | .error e => (.ok e, calls2 ++ [ApiCall.createRecoverTask body])
                  | .ok _ => (.ok (restore_success_msg task_name),
                      calls2 ++ [ApiCall.createRecoverTask body])

/-- A neutral environment for concrete evaluations: every endpoint
answers with an empty or trivial successful response. -/
def baseEnv : ApiEnv where
  rootNodes := .ok []
  virtualMachines := fun _ _ => .ok []
  protectionJobs := fun _ => .ok []
  policies := fun _ => .ok []
  viewBoxes := fun _ => .ok []
  createJobResp := .ok ⟨0, "", []⟩
  changeStateResp := .ok ()
  updateJobResp := .ok ()
  updateJobsStateResp := .ok ()
  protectionRuns := fun _ => .ok []
  cancelRunResp := .ok ()
  searchObjectsResp := fun _ _ => .ok []
  listProtectionSourcesResp := .ok []
  recoverTaskResp := .ok ()

/-! ## Shared lemmas -/

theorem mem_union_ids (newIds : List Int) :
    ∀ (base : List Int) (x : Int),
      x ∈ union_ids base newIds ↔ x ∈ base ∨ x ∈ newIds := by
  induction newIds with
  | nil => intro base x; simp [union_ids]
  | cons i is ih =>
    intro base x
    simp only [union_ids]
    rw [ih]
    by_cases h : i ∈ base
    · simp only [if_pos h, List.mem_cons]
      constructor
      · rintro (hx | hx)
        · exact Or.inl hx
        · exact Or.inr (Or.inr hx)
      · rintro (hx | hx | hx)
        · exact Or.inl hx
        · exact Or.inl (hx ▸ h)
        · exact Or.inr hx
    · simp only [if_neg h, List.mem_append, List.mem_singleton, List.mem_cons]
      tauto

theorem nodup_union_ids (newIds : List Int) :
    ∀ base : List Int, base.Nodup → (union_ids base newIds).Nodup := by
  induction newIds with
  | nil => intro base hb; simpa [union_ids]
  | cons i is ih =>
    intro base hb
    simp only [union_ids]
    apply ih
    by_cases h : i ∈ base
    · simpa [if_pos h]
    · rw [if_neg h]
      simp [List.nodup_append, hb, h]

theorem find_parent_id_no_match (roots : List RootSource) (name : String)
    (h : ∀ s ∈ roots, name ≠ s.endpoint ∧ name ≠ s.srcName) :
    find_parent_id roots name = -1 := by
  have general : ∀ acc : Int,
      roots.foldl (fun acc s =>
        if name = s.endpoint ∨ name = s.srcName then s.srcId else acc) acc = acc := by
    induction roots with
    | nil => intro acc; rfl
    | cons r rs ih =>
      intro acc
      have hr := h r (List.mem_cons_self r rs)
      have : ¬ (name = r.endpoint ∨ name = r.srcName) := by
        rintro (hc | hc)
        · exact hr.1 hc
        · exact hr.2 hc
      simp only [List.foldl_cons, if_neg this]
      exact ih (fun s hs => h s (List.mem_cons_of_mem r hs)) acc
  exact general (-1)

theorem snap_scan_all_le (snaps : List Snap) :
    ∀ (t : Int) (c : Option SnapPick), (∀ u ∈ snaps, u.sTime ≤ t) →
      snap_scan snaps t c = (t, c) := by
  induction snaps with
  | nil => intro t c _; rfl
  | cons s rest ih =>
    intro t c h
    have hs : s.sTime ≤ t := h s (List.mem_cons_self s rest)
    have hnot : ¬ t < s.sTime := by omega
    simp only [snap_scan, if_neg hnot]
    exact ih t c (fun u hu => h u (List.mem_cons_of_mem s hu))

theorem snap_scan_picks_first_max (snaps : List Snap) :
    ∀ (t : Int) (c : Option SnapPick), (∃ u ∈ snaps, t < u.sTime) →
      ∃ l1 s l2, snaps = l1 ++ s :: l2 ∧ t < s.sTime
        ∧ (∀ u ∈ l1, u.sTime < s.sTime)
        ∧ (∀ u ∈ l2, u.sTime ≤ s.sTime)
        ∧ (snap_scan snaps t c).2 = some (pick_of s) := by
  induction snaps with
  | nil => intro t c h; simp at h
  | cons u rest ih =>
    intro t c h
    by_cases htu : t < u.sTime
    · by_cases hrest : ∃ v ∈ rest, u.sTime < v.sTime
      · obtain ⟨l1, s, l2, heq, hts, hl1, hl2, hres⟩ :=
          ih u.sTime (some (pick_of u)) hrest
        refine ⟨u :: l1, s, l2, by rw [heq]; rfl, lt_trans htu hts, ?_, hl2, ?_⟩
        · intro x hx
          rcases List.mem_cons.mp hx with hx | hx
          · exact hx ▸ hts
          · exact hl1 x hx
        · simp only [snap_scan, if_pos htu]
          exact hres
      · push_neg at hrest
        refine ⟨[], u, rest, rfl, htu, by simp, hrest, ?_⟩
        simp only [snap_scan, if_pos htu]
        rw [snap_scan_all_le rest u.sTime (some (pick_of u)) hrest]
    · have hut : u.sTime ≤ t := by omega
      obtain ⟨v, hv, htv⟩ := h
      rcases List.mem_cons.mp hv with hveq | hvr
      · exact absurd (hveq ▸ htv) htu
      · obtain ⟨l1, s, l2, heq, hts, hl1, hl2, hres⟩ := ih t c ⟨v, hvr, htv⟩
        refine ⟨u :: l1, s, l2, by rw [heq]; rfl, hts, ?_, hl2, ?_⟩
        · intro x hx
          rcases List.mem_cons.mp hx with hx | hx
          · subst hx; omega
          · exact hl1 x hx
        · simp only [snap_scan, if_neg htu]
          exact hres

/-! ## Claim C1 -/

def envC1 : ApiEnv :=
  { baseEnv with protectionJobs := fun _ => .ok [⟨5, "job10", []⟩] }

/-- Claim C1: the spec says every public operation returns a string and no
exception of any kind propagates past the operation boundary.  The code
catches only APIException: when the name-filtered job lookup returns a
non-empty list containing no job named exactly "job1" (the names filter
is server-side, not exact), cancel_vmware_protection_job leaves job_id
unbound and the falsy test on job_id raises UnboundLocalError, which
escapes the operation. -/
theorem C1_cancel_unbound_local :
    (cancel_vmware_protection_job envC1 "job1").1
      = .error (.unboundLocal "job_id") := by decide

/-! ## Claim C2 -/

def cfgC2 : CohesityConfig := ⟨"10.2.45.98", "admin", "secret", "LOCAL"⟩

/-- Claim C2: the spec says _get_client builds the handle once and caches
it.  In the code the cache dict is a fresh local rebuilt on every call
whose only key is the literal string "context_key", so the lookup always
misses: every call constructs a new CohesityClient, and two successive
calls construct two. -/
theorem C2_client_rebuilt_every_call :
    (get_client cfgC2 ⟨0⟩).2.built = 1
    ∧ (get_client cfgC2 (get_client cfgC2 ⟨0⟩).2).2.built = 2
    ∧ (get_client cfgC2 ⟨0⟩).1
      = some ⟨"10.2.45.98", "admin", "secret", "LOCAL"⟩ := by decide

/-! ## Claim C3 -/

/-- Claim C3 (counterexample): with two snapshot records sharing the
maximum timestamp, the scan of restore_vms keeps the FIRST one (the
comparison is strict less-than), contradicting the claim that the last
in list order wins. -/
theorem C3_counterexample :
    (snap_scan [⟨1, 11, 111, 100⟩, ⟨2, 22, 222, 100⟩] 0 none).2
      = some ⟨1, 11, 111, 100⟩
    ∧ (snap_scan [⟨1, 11, 111, 100⟩, ⟨2, 22, 222, 100⟩] 0 none).2
      ≠ some ⟨2, 22, 222, 100⟩ := by decide

/-- Claim C3 (amended): for every non-empty list of snapshot records with
positive captured timestamps scanned by restore_vms, the snapshot chosen
for the recovery request is one whose captured timestamp is the maximum
over all candidates, and when several candidates share that maximum the
one occurring FIRST in list order is chosen (a later equal timestamp
never overwrites the pick). -/
theorem C3_first_max_selected (snaps : List Snap)
    (hne : snaps ≠ []) (hpos : ∀ u ∈ snaps, 0 < u.sTime) :
    ∃ l1 s l2, snaps = l1 ++ s :: l2
      ∧ (snap_scan snaps 0 none).2 = some (pick_of s)
      ∧ (∀ u ∈ snaps, u.sTime ≤ s.sTime)
      ∧ (∀ u ∈ l1, u.sTime < s.sTime)
      ∧ (∀ u ∈ l2, u.sTime ≤ s.sTime) := by
  obtain ⟨u, hu⟩ : ∃ u, u ∈ snaps := by
    cases snaps with
    | nil => exact absurd rfl hne
    | cons a l => exact ⟨a, List.mem_cons_self a l⟩
  obtain ⟨l1, s, l2, heq, _, hl1, hl2, hres⟩ :=
    snap_scan_picks_first_max snaps 0 none ⟨u, hu, hpos u hu⟩
  refine ⟨l1, s, l2, heq, hres, ?_, hl1, hl2⟩
  intro x hx
  rw [heq] at hx
  rcases List.mem_append.mp hx with hx | hx
  · exact le_of_lt (hl1 x hx)
  · rcases List.mem_cons.mp hx with hx | hx
    · exact hx ▸ le_refl _
    · exact hl2 x hx

theorem C3_first_max_selected_witness :
    ∃ l1 s l2,
      ([⟨1, 1, 1, 5⟩, ⟨2, 2, 2, 7⟩, ⟨3, 3, 3, 7⟩] : List Snap) = l1 ++ s :: l2
      ∧ (snap_scan [⟨1, 1, 1, 5⟩, ⟨2, 2, 2, 7⟩, ⟨3, 3, 3, 7⟩] 0 none).2
        = some (pick_of s)
      ∧ (∀ u ∈ ([⟨1, 1, 1, 5⟩, ⟨2, 2, 2, 7⟩, ⟨3, 3, 3, 7⟩] : List Snap),
          u.sTime ≤ s.sTime)
      ∧ (∀ u ∈ l1, u.sTime < s.sTime)
      ∧ (∀ u ∈ l2, u.sTime ≤ s.sTime) :=
  C3_first_max_selected _ (by decide) (by decide)

/-! ## Claim C4 -/

def envC4 : ApiEnv :=
  { baseEnv with
    rootNodes := .ok [⟨"vcOther", "vcOther", 10⟩]
    virtualMachines := fun _ _ => .ok [⟨"vm1", 5⟩] }

/-- Claim C4 (counterexample): with the requested name "vc1" absent from
the registered root sources, the child-listing call IS issued (with the
sentinel -1 as v_center_id), and the returned child-id list follows that
response of that call — here non-empty — so neither the empty-child-list part
nor the call-only-on-valid-parent part of the claim holds. -/
theorem C4_counterexample :
    (get_vmware_source_ids envC4 "vc1" ["vm1"]).1 = .ok (-1, [5])
    ∧ ApiCall.listVirtualMachines (-1) ["vm1"]
      ∈ (get_vmware_source_ids envC4 "vc1" ["vm1"]).2 := by decide

/-- Claim C4 (amended): for every requested root-source name not present
among the registered root sources, _get_vmware_source_ids yields the
not-found sentinel -1 as parent id whenever it returns a pair, but the
child-entity listing call is issued unconditionally, with the sentinel
as v_center_id; the child-id list is whatever that call yields — the
collected ids on success, and the empty list when the call raises
APIException. -/
theorem C4_sentinel_and_unconditional_child_call (env : ApiEnv) (name : String)
    (vm_list : List String) (roots : List RootSource)
    (hroots : env.rootNodes = .ok roots)
    (hnomatch : ∀ s ∈ roots, name ≠ s.endpoint ∧ name ≠ s.srcName) :
    ApiCall.listVirtualMachines (-1) vm_list
      ∈ (get_vmware_source_ids env name vm_list).2
    ∧ (∀ p ids, (get_vmware_source_ids env name vm_list).1 = .ok (p, ids) → p = -1)
    ∧ (∀ e, env.virtualMachines (-1) vm_list = .error e →
        (get_vmware_source_ids env name vm_list).1 = .ok (-1, []))
    ∧ (∀ vms rem ids, env.virtualMachines (-1) vm_list = .ok vms →
        vm_loop vms vm_list [] = .ok (rem, ids) →
        (get_vmware_source_ids env name vm_list).1 = .ok (-1, ids)) := by
  have hp : find_parent_id roots name = -1 := find_parent_id_no_match roots name hnomatch
  refine ⟨?_, ?_, ?_, ?_⟩
  · rcases hvm : env.virtualMachines (-1) vm_list with e | vms
    · simp [get_vmware_source_ids, hroots, hp, hvm]
    · rcases hloop : vm_loop vms vm_list [] with e | out
      · simp [get_vmware_source_ids, hroots, hp, hvm, hloop]
      · simp [get_vmware_source_ids, hroots, hp, hvm, hloop]
  · intro p ids hres
    rcases hvm : env.virtualMachines (-1) vm_list with e | vms
    · simp [get_vmware_source_ids, hroots, hp, hvm] at hres
      exact hres.1.symm
    · rcases hloop : vm_loop vms vm_list [] with e | out
      · simp [get_vmware_source_ids, hroots, hp, hvm, hloop] at hres
      · simp [get_vmware_source_ids, hroots, hp, hvm, hloop] at hres
        exact hres.1.symm
  · intro e hvm
    simp [get_vmware_source_ids, hroots, hp, hvm]
  · intro vms rem ids hvm hloop
    simp [get_vmware_source_ids, hroots, hp, hvm, hloop]

theorem C4_sentinel_and_unconditional_child_call_witness :
    ApiCall.listVirtualMachines (-1) ["vm1"]
      ∈ (get_vmware_source_ids envC4 "vc1" ["vm1"]).2
    ∧ (∀ p ids, (get_vmware_source_ids envC4 "vc1" ["vm1"]).1 = .ok (p, ids) → p = -1)
    ∧ (∀ e, envC4.virtualMachines (-1) ["vm1"] = .error e →
        (get_vmware_source_ids envC4 "vc1" ["vm1"]).1 = .ok (-1, []))
    ∧ (∀ vms rem ids, envC4.virtualMachines (-1) ["vm1"] = .ok vms →
        vm_loop vms ["vm1"] [] = .ok (rem, ids) →
        (get_vmware_source_ids envC4 "vc1" ["vm1"]).1 = .ok (-1, ids)) :=
  C4_sentinel_and_unconditional_child_call envC4 "vc1" ["vm1"]
    [⟨"vcOther", "vcOther", 10⟩] (by rfl) (by decide)

/-! ## Claim C5 -/

def envC5 : ApiEnv :=
  { baseEnv with protectionJobs := fun _ => .ok [⟨7, "jobX2", [1]⟩] }

/-- Claim C5: the spec invariant says every mutating job operation
resolves the job by exact name match before acting and fails cleanly
otherwise.  update_vmware_protection_job acts on the first job of the
name-filtered lookup without verifying the exact name: asked for "jobX"
while the lookup returns only a job named "jobX2", it submits the
full-object update for that other job and reports success under the
name of that other job. -/
theorem C5_update_acts_on_wrong_job :
    ApiCall.updateProtectionJob ⟨7, "jobX2", []⟩ 7
      ∈ (update_vmware_protection_job envC5 "jobX" "vc1" "vm1" true).2
    ∧ (update_vmware_protection_job envC5 "jobX" "vc1" "vm1" true).1
      = .ok "Successfully Updated ProtectionGroup: jobX2" := by decide

/-! ## Claim C6 -/

def envC6 : ApiEnv :=
  { baseEnv with protectionJobs := fun _ => .ok [⟨1, "job1", []⟩] }

/-- Claim C6 (counterexample): with a state value outside the supported
set, update_vmware_protection_job_state still issues the job-lookup
network call first (the call trace is non-empty), and when that lookup
returns no jobs the operation answers with the not-available message,
not the unsupported-state one. -/
theorem C6_counterexample :
    (update_vmware_protection_job_state envC6 "job1" "destroy").2 ≠ []
    ∧ (update_vmware_protection_job_state baseEnv "job1" "destroy").1
      = .ok (not_available_dot_msg "job1") := by decide

/-- Claim C6 (amended): for every state value outside {activate,
deactivate, pause, resume}, when the job lookup succeeds with a
non-empty list, update_vmware_protection_job_state returns the
unsupported-state message listing the valid set and issues no
state-change call: the job-lookup call is the only network call made. -/
theorem C6_unsupported_state_no_mutation (env : ApiEnv) (job_name state : String)
    (j : Job) (rest : List Job)
    (hjobs : env.protectionJobs job_name = .ok (j :: rest))
    (hstate : state ∉ supported_states) :
    update_vmware_protection_job_state env job_name state
      = (.ok (unsupported_state_msg state), [.getProtectionJobs job_name]) := by
  simp [update_vmware_protection_job_state, hjobs, hstate]

theorem C6_unsupported_state_no_mutation_witness :
    update_vmware_protection_job_state envC6 "job1" "destroy"
      = (.ok (unsupported_state_msg "destroy"), [.getProtectionJobs "job1"]) :=
  C6_unsupported_state_no_mutation envC6 "job1" "destroy" ⟨1, "job1", []⟩ []
    (by rfl) (by decide)

/-! ## Claim C7 -/

/-- Claim C7: for every update of an existing job whose prior member list
is duplicate-free, the submitted member-source-id list with
replace_existing=true contains no id that is not among the newly
resolved ids, with replace_existing=false it is the deduplicated union
of the prior member set and the newly resolved ids, and in both cases it
has no duplicates; the update submission carries exactly that list. -/
theorem C7_update_member_ids (env : ApiEnv)
    (job_name vcenter_name sources : String) (replace_existing : Bool)
    (j : Job) (rest : List Job) (p : Int) (newIds : List Int)
    (hjobs : env.protectionJobs job_name = .ok (j :: rest))
    (hsrc : (get_vmware_source_ids env vcenter_name (py_split_comma sources)).1
      = .ok (p, newIds))
    (hnodup : j.sourceIds.Nodup) :
    ApiCall.updateProtectionJob
        { j with sourceIds :=
            union_ids (if replace_existing then [] else j.sourceIds) newIds }
        j.jobId
      ∈ (update_vmware_protection_job env job_name vcenter_name sources
          replace_existing).2
    ∧ (union_ids (if replace_existing then [] else j.sourceIds) newIds).Nodup
    ∧ (replace_existing = true → ∀ x ∈ union_ids [] newIds, x ∈ newIds)
    ∧ (replace_existing = false →
        ∀ x, x ∈ union_ids j.sourceIds newIds ↔ x ∈ j.sourceIds ∨ x ∈ newIds) := by
  refine ⟨?_, ?_, ?_, ?_⟩
  · rcases hupd : env.updateJobResp with e | u
    · simp [update_vmware_protection_job, hjobs, hsrc, hupd]
    · simp [update_vmware_protection_job, hjobs, hsrc, hupd]
  · cases replace_existing
    · simpa using nodup_union_ids newIds j.sourceIds hnodup
    · simpa using nodup_union_ids newIds [] List.nodup_nil
  · intro _ x hx
    have := (mem_union_ids newIds [] x).mp hx
    simpa using this
  · intro _ x
    exact mem_union_ids newIds j.sourceIds x

def envC7 : ApiEnv :=
  { baseEnv with
    protectionJobs := fun _ => .ok [⟨7, "job1", [1, 2]⟩]
    rootNodes := .ok [⟨"vc1", "vc1", 10⟩]
    virtualMachines := fun _ _ => .ok [⟨"vm1", 2⟩, ⟨"vm2", 3⟩] }

theorem C7_update_member_ids_witness :
    ApiCall.updateProtectionJob ⟨7, "job1", union_ids [1, 2] [2, 3]⟩ 7
      ∈ (update_vmware_protection_job envC7 "job1" "vc1" "vm1,vm2" false).2
    ∧ (union_ids [1, 2] [2, 3]).Nodup
    ∧ (false = true → ∀ x ∈ union_ids [] [2, 3], x ∈ [2, 3])
    ∧ (false = false →
        ∀ x, x ∈ union_ids [1, 2] [2, 3] ↔ x ∈ [1, 2] ∨ x ∈ [2, 3]) :=
  C7_update_member_ids envC7 "job1" "vc1" "vm1,vm2" false ⟨7, "job1", [1, 2]⟩ []
    10 [2, 3] (by rfl) (by decide) (by decide)

/-! ## Claim C8 -/

def envC8 : ApiEnv :=
  { baseEnv with protectionJobs := fun _ => .ok [⟨7, "job1", [1, 2]⟩] }

/-- Claim C8: calling update_vmware_protection_job on an existing job with
replace_existing=true while source resolution yields no ids still
submits the full-job update with an empty member-source-id list,
clearing the membership of the job instead of aborting, and reports success. -/
theorem C8_replace_with_no_ids_clears (env : ApiEnv)
    (job_name vcenter_name sources : String)
    (j : Job) (rest : List Job) (p : Int)
    (hjobs : env.protectionJobs job_name = .ok (j :: rest))
    (hsrc : (get_vmware_source_ids env vcenter_name (py_split_comma sources)).1
      = .ok (p, []))
    (hupd : env.updateJobResp = .ok ()) :
    ApiCall.updateProtectionJob { j with sourceIds := [] } j.jobId
      ∈ (update_vmware_protection_job env job_name vcenter_name sources true).2
    ∧ (update_vmware_protection_job env job_name vcenter_name sources true).1
      = .ok ("Successfully Updated ProtectionGroup: " ++ j.jobName) := by
  constructor
  · simp [update_vmware_protection_job, hjobs, hsrc, hupd, union_ids]
  · simp [update_vmware_protection_job, hjobs, hsrc, hupd, union_ids]

theorem C8_replace_with_no_ids_clears_witness :
    ApiCall.updateProtectionJob ⟨7, "job1", []⟩ 7
      ∈ (update_vmware_protection_job envC8 "job1" "vc1" "vm1" true).2
    ∧ (update_vmware_protection_job envC8 "job1" "vc1" "vm1" true).1
      = .ok ("Successfully Updated ProtectionGroup: " ++ "job1") :=
  C8_replace_with_no_ids_clears envC8 "job1" "vc1" "vm1" ⟨7, "job1", [1, 2]⟩ []
    (-1) (by rfl) (by decide) (by rfl)

/-! ## Claim C9 -/

/-- Claim C9: in restore_vms the vm_names argument stays the raw
comma-separated string (only the resolver call splits a local copy), so
the snapshot search term and the source name of the recovery object are
vm_names[0] — the first character of that string — not a resolved VM
name from the list. -/
theorem C9_first_char_search_and_source_name (env : ApiEnv)
    (task_name vcenter_name vm_names resource_pool datastore_name pfx sfx : String)
    (powered_on : Bool) (pid : Int) (sid : Int) (sids : List Int)
    (root : SourceRoot) (roots2 : List SourceRoot) (snaps : List Snap) (p : SnapPick)
    (hsrc : (get_vmware_source_ids env vcenter_name (py_split_comma vm_names)).1
      = .ok (pid, sid :: sids))
    (hobjs : env.listProtectionSourcesResp = .ok (root :: roots2))
    (hvm : vm_names ≠ "")
    (hsearch : env.searchObjectsResp (vm_names.take 1) pid = .ok snaps)
    (hscan : (snap_scan snaps 0 none).2 = some p) :
    ApiCall.searchObjects (vm_names.take 1) pid
      ∈ (restore_vms env task_name vcenter_name vm_names resource_pool
          datastore_name pfx sfx powered_on).2
    ∧ ApiCall.createRecoverTask
        ⟨task_name, "kRecoverVMs",
         [⟨"kVMware", p.pJobId, p.pJobRunId, p.pUid, sid, vm_names.take 1, p.pTStamp⟩],
         powered_on, "kInstantRecovery", pfx, sfx⟩
      ∈ (restore_vms env task_name vcenter_name vm_names resource_pool
          datastore_name pfx sfx powered_on).2 := by
  rcases hrec : env.recoverTaskResp with e | u
  · constructor
    · simp [restore_vms, hsrc, hobjs, hvm, hsearch, hscan, hrec, fetch_source_objects]
    · simp [restore_vms, hsrc, hobjs, hvm, hsearch, hscan, hrec, fetch_source_objects]
  · constructor
    · simp [restore_vms, hsrc, hobjs, hvm, hsearch, hscan, hrec, fetch_source_objects]
    · simp [restore_vms, hsrc, hobjs, hvm, hsearch, hscan, hrec, fetch_source_objects]

def envC9 : ApiEnv :=
  { baseEnv with
    rootNodes := .ok [⟨"vc1", "vc1", 10⟩]
    virtualMachines := fun _ _ => .ok [⟨"vm1", 5⟩]
    listProtectionSourcesResp := .ok [⟨[]⟩]
    searchObjectsResp := fun _ _ => .ok [⟨1, 2, 3, 100⟩] }

theorem C9_first_char_search_and_source_name_witness :
    ApiCall.searchObjects ("vm1".take 1) 10
      ∈ (restore_vms envC9 "task1" "vc1" "vm1" "" "" "" "" true).2
    ∧ ApiCall.createRecoverTask
        ⟨"task1", "kRecoverVMs", [⟨"kVMware", 1, 2, 3, 5, "vm1".take 1, 100⟩],
         true, "kInstantRecovery", "", ""⟩
      ∈ (restore_vms envC9 "task1" "vc1" "vm1" "" "" "" "" true).2 :=
  C9_first_char_search_and_source_name envC9 "task1" "vc1" "vm1" "" "" "" "" true
    10 5 [] ⟨[]⟩ [] [⟨1, 2, 3, 100⟩] ⟨1, 2, 3, 100⟩
    (by decide) (by rfl) (by decide) (by rfl) (by decide)

/-! ## Claim C10 -/

/-- Claim C10: a policy or storage-domain name matching no entity on the
cluster makes _get_policy_id and _get_sd_id return the absent value None
rather than fail, and create_vmware_protection_job then proceeds to
submit the job request with that absent policy id / view-box id instead
of aborting with a not-found message. -/
theorem C10_absent_policy_and_domain (env : ApiEnv)
    (job_name vcenter_name sources policy domain timezone description : String)
    (pause_job : Bool) (pid : Int) (ids : List Int) (j : Job)
    (hjobs : env.protectionJobs job_name = .ok [])
    (hpol : env.policies policy = .ok [])
    (hsd : env.viewBoxes domain = .ok [])
    (hsrc : (get_vmware_source_ids env vcenter_name (py_split_comma sources)).1
      = .ok (pid, ids))
    (hpid : pid ≠ -1) (hids : ids ≠ [])
    (hcreate : env.createJobResp = .ok j)
    (hpause : env.changeStateResp = .ok ()) :
    (get_policy_id env policy).1 = .ok none
    ∧ (get_sd_id env domain).1 = .ok none
    ∧ ApiCall.createProtectionJob
        ⟨job_name, description, none, timezone, none, true, pid, ids⟩
      ∈ (create_vmware_protection_job env job_name vcenter_name sources policy
          domain pause_job timezone description).2
    ∧ (create_vmware_protection_job env job_name vcenter_name sources policy
        domain pause_job timezone description).1
      = .ok ("Successfully created ProtectionGroup: " ++ job_name) := by
  refine ⟨by simp [get_policy_id, hpol], by simp [get_sd_id, hsd], ?_, ?_⟩
  all_goals cases pause_job
  all_goals simp [create_vmware_protection_job, get_policy_id, get_sd_id,
    hjobs, hpol, hsd, hsrc, hpid, hids, hcreate, hpause]

def envC10 : ApiEnv :=
  { baseEnv with
    rootNodes := .ok [⟨"vc1", "vc1", 10⟩]
    virtualMachines := fun _ _ => .ok [⟨"vm1", 5⟩]
    createJobResp := .ok ⟨99, "job1", []⟩ }

theorem C10_absent_policy_and_domain_witness :
    (get_policy_id envC10 "Gold").1 = .ok none
    ∧ (get_sd_id envC10 "DefaultStorageDomain").1 = .ok none
    ∧ ApiCall.createProtectionJob
        ⟨"job1", "", none, "Europe/Berlin", none, true, 10, [5]⟩
      ∈ (create_vmware_protection_job envC10 "job1" "vc1" "vm1" "Gold"
          "DefaultStorageDomain" true "Europe/Berlin" "").2
    ∧ (create_vmware_protection_job envC10 "job1" "vc1" "vm1" "Gold"
        "DefaultStorageDomain" true "Europe/Berlin" "").1
      = .ok ("Successfully created ProtectionGroup: " ++ "job1") :=
  C10_absent_policy_and_domain envC10 "job1" "vc1" "vm1" "Gold"
    "DefaultStorageDomain" "Europe/Berlin" "" true 10 [5] ⟨99, "job1", []⟩
    (by rfl) (by rfl) (by rfl) (by decide) (by decide) (by decide)
    (by rfl) (by rfl)

end Cohesity
